import Mathlib

/-!
Shallow embedding of `src/pr-summary-bot/hello.py`.

The script is a linear session-lifecycle driver:

```
client = CopilotClient()
await client.start()
try:
    session = await client.create_session({"model": "gpt-4.1"})
    response = await session.send_and_wait(
        {"prompt": "Pythonでfizzbuzzを書いて"},
        timeout=60.0,
    )
    print(response.data.content)
    await session.destroy()
finally:
    await client.stop()
```

Every externally visible step is a remote call whose success or failure is
decided by the environment (the remote service, the terminal).  We embed the
driver as a function from an environment oracle `Env` — recording, for each
external call, whether it succeeds and, for `send_and_wait`, the response —
to the list of invocations the driver performs (`Event` trace, in order) and
the error that reaches the process boundary (`none` on success).

The control flow is translated literally from the Python source, including
the `try`/`finally` semantics of CPython: the `finally` block always runs
once the `try` statement is entered, and if the `finally` block itself
raises, its exception replaces any exception that was propagating out of the
`try` body.  `session.destroy()` sits inside the `try` body, after the
`print`, so it runs only when every earlier step of the body succeeded.
-/

/-- The payload carried by a reply, mirroring `response.data` with its
`content` field (`response.data.content` is what the script prints). -/
structure ResponseData where
  content : String
deriving DecidableEq

/-- A reply from `send_and_wait`, mirroring the `response` object: it has a
`data` field holding the content. -/
structure Response where
  data : ResponseData
deriving DecidableEq

/-- Outcome of the `send_and_wait` call, decided by the remote service: a
complete response, a timeout (no response within the deadline), or an
explicit service-side failure. -/
inductive SendOutcome where
  | ok (response : Response)
  | timeout
  | requestError
deriving DecidableEq

/-- The environment oracle for one run: for each external call of the
script, whether that call succeeds, and for `send_and_wait` the outcome.
Fields appear in the order the script makes the calls. -/
structure Env where
  startOk : Bool
  createOk : Bool
  send : SendOutcome
  printOk : Bool
  destroyOk : Bool
  stopOk : Bool
deriving DecidableEq

/-- One externally visible invocation made by the driver.  An event records
that the call was issued, whether or not it then succeeded. -/
inductive Event where
  | start
  | create_session (model : String)
  | send_and_wait (prompt : String) (timeout : Nat)
  | print (line : String)
  | destroy
  | stop
deriving DecidableEq

/-- The errors that can reach the process boundary, one per failing call:
the four errors of the spec taxonomy for the main flow, plus generic errors
for a failing `print`, `session.destroy()` or `client.stop()`. -/
inductive Err where
  | connectionError
  | sessionCreationError
  | timeoutError
  | requestError
  | printError
  | destroyError
  | stopError
deriving DecidableEq

/-- The model selector the script passes to `create_session`. -/
def modelName : String := "gpt-4.1"

/-- The prompt the script passes to `send_and_wait`. -/
def promptText : String := "Pythonでfizzbuzzを書いて"

/-- The timeout the script passes to `send_and_wait` (60.0 seconds in the
source; 60 time units here). -/
def timeoutValue : Nat := 60

/-- The `try` body of `main` (lines 10–20 of `hello.py`): create the
session, send and wait, print the content, destroy the session.  Returns the
invocations performed and the error propagating out of the body, if any.
Each step runs only if every earlier step succeeded, exactly as in the
straight-line Python body. -/
def tryBody (env : Env) : List Event × Option Err :=
  if env.createOk = false then
    ([Event.create_session modelName], some Err.sessionCreationError)
  else
    match env.send with
    | SendOutcome.timeout =>
        ([Event.create_session modelName,
          Event.send_and_wait promptText timeoutValue],
         some Err.timeoutError)
    | SendOutcome.requestError =>
        ([Event.create_session modelName,
          Event.send_and_wait promptText timeoutValue],
         some Err.requestError)
    | SendOutcome.ok r =>
        if env.printOk = false then
          ([Event.create_session modelName,
            Event.send_and_wait promptText timeoutValue,
            Event.print r.data.content],
           some Err.printError)
        else if env.destroyOk = false then
          ([Event.create_session modelName,
            Event.send_and_wait promptText timeoutValue,
            Event.print r.data.content,
            Event.destroy],
           some Err.destroyError)
        else
          ([Event.create_session modelName,
            Event.send_and_wait promptText timeoutValue,
            Event.print r.data.content,
            Event.destroy],
           none)

/-- The whole driver (the `main` coroutine) of `hello.py`: start the client; if that fails
the run aborts with `ConnectionError` before the `try` statement is entered.
Otherwise run the `try` body, then the `finally` block (`client.stop()`).
Per CPython semantics, if `client.stop()` raises, its error replaces
whatever error was propagating out of the body; otherwise the body's error
(or success) is the run's outcome. -/
def mainRun (env : Env) : List Event × Option Err :=
  if env.startOk = false then
    ([Event.start], some Err.connectionError)
  else
    let r := tryBody env
    let trace := Event.start :: (r.1 ++ [Event.stop])
    if env.stopOk = false then
      (trace, some Err.stopError)
    else
      (trace, r.2)

/-- Does an event mention the session, i.e. is it an operation performed on
the session object (`send_and_wait` or `destroy`)? -/
def Event.isSessionOp : Event → Bool
  | Event.send_and_wait _ _ => true
  | Event.destroy => true
  | _ => false

/-- Recognise a `client.start()` invocation. -/
def Event.isStart : Event → Bool
  | Event.start => true
  | _ => false

/-- Recognise a `create_session` invocation. -/
def Event.isCreate : Event → Bool
  | Event.create_session _ => true
  | _ => false

/-- Recognise a `send_and_wait` invocation. -/
def Event.isSend : Event → Bool
  | Event.send_and_wait _ _ => true
  | _ => false

/-- Recognise a `print` invocation. -/
def Event.isPrint : Event → Bool
  | Event.print _ => true
  | _ => false

/-- Recognise a `session.destroy()` invocation. -/
def Event.isDestroy : Event → Bool
  | Event.destroy => true
  | _ => false

/-- Recognise a `client.stop()` invocation. -/
def Event.isStop : Event → Bool
  | Event.stop => true
  | _ => false

/-- Did the `send_and_wait` call succeed (produce a complete response)? -/
def SendOutcome.isOk : SendOutcome → Bool
  | SendOutcome.ok _ => true
  | _ => false

/-- The content of the response when the send succeeded (and the empty
string in the failure cases, where no response exists). -/
def SendOutcome.content : SendOutcome → String
  | SendOutcome.ok r => r.data.content
  | _ => ""

/-- Helper for `noUseAfterDestroy`: if `e` is the destroy invocation, then
no later invocation in `rest` may operate on the session. -/
def tailOk (e : Event) (rest : List Event) : Bool :=
  if Event.isDestroy e then rest.all (fun b => !(Event.isSessionOp b)) else true

/-- No invocation in the trace operates on the session after the session has
been destroyed. -/
def noUseAfterDestroy : List Event → Bool
  | [] => true
  | e :: rest => tailOk e rest && noUseAfterDestroy rest

/-- The `client.stop()` invocation, when present, is the last invocation of
the trace: no event of any kind follows a stop. -/
def stopIsLast : List Event → Bool
  | [] => true
  | [_] => true
  | e :: rest => (!(Event.isStop e)) && stopIsLast rest

/-- A run in which every call succeeds and the service replies with the
given content. -/
def envOk (content : String) : Env :=
  ⟨true, true, SendOutcome.ok ⟨⟨content⟩⟩, true, true, true⟩

/-- A run in which `send_and_wait` times out and everything else succeeds. -/
def envTimeout : Env :=
  ⟨true, true, SendOutcome.timeout, true, true, true⟩

/-- C3: for every run in which `client.start()` succeeds, `client.stop()` is
invoked exactly once, whatever the outcome of session creation,
send-and-wait, printing, or session destroy, and whether or not the stop
call itself then succeeds. -/
theorem c3_thm (env : Env) (h : env.startOk = true) :
    ((mainRun env).1.countP Event.isStop) = 1 := by
  obtain ⟨s, c, snd, p, d, st⟩ := env
  cases s <;> cases c <;> cases snd <;> cases p <;> cases d <;> cases st <;>
    simp_all [mainRun, tryBody, Event.isStop, List.countP_cons, List.countP_append]

/-- Witness for C3 at a concrete run: the client starts, the send times
out, and the stop call is still counted exactly once. -/
theorem c3_witness :
    envTimeout.startOk = true ∧ ((mainRun envTimeout).1.countP Event.isStop) = 1 :=
  ⟨by decide, c3_thm envTimeout (by decide)⟩

/-- C1 counterexample: in the run where `send_and_wait` times out (and every
other call would succeed), `session.destroy()` is never invoked — its count
in the trace is zero — even though the session was created, while the claim
asserts destroy is performed unconditionally whenever a session was created.
The surfaced error is the timeout. -/
theorem c1_cex :
    envTimeout.send = SendOutcome.timeout ∧
    ((mainRun envTimeout).1.countP Event.isCreate) = 1 ∧
    ((mainRun envTimeout).1.countP Event.isDestroy) = 0 ∧
    (mainRun envTimeout).2 = some Err.timeoutError := by
  decide

/-- C1 amended: for every run in which the client started, the session was
created and `send_and_wait` fails (timeout or service-side failure),
`client.stop()` is still invoked exactly once before the error reaches the
process boundary, but `session.destroy()` is not invoked at all: the destroy
call sits inside the guarded region after the send and print steps, so it is
skipped whenever the send step fails. -/
theorem c1_amended_thm (env : Env) (hs : env.startOk = true)
    (hc : env.createOk = true) (hf : env.send.isOk = false) :
    ((mainRun env).1.countP Event.isStop) = 1 ∧
    ((mainRun env).1.countP Event.isDestroy) = 0 ∧
    ((mainRun env).1.countP Event.isSend) = 1 := by
  obtain ⟨s, c, snd, p, d, st⟩ := env
  cases s <;> cases c <;> cases snd <;> cases p <;> cases d <;> cases st <;>
    simp_all [mainRun, tryBody, SendOutcome.isOk, Event.isStop, Event.isDestroy,
      Event.isSend, List.countP_cons, List.countP_append]

/-- Witness for the amended C1 at the concrete timed-out run. -/
theorem c1_witness :
    envTimeout.startOk = true ∧ envTimeout.createOk = true ∧
    envTimeout.send.isOk = false ∧
    (((mainRun envTimeout).1.countP Event.isStop) = 1 ∧
     ((mainRun envTimeout).1.countP Event.isDestroy) = 0 ∧
     ((mainRun envTimeout).1.countP Event.isSend) = 1) :=
  ⟨by decide, by decide, by decide,
   c1_amended_thm envTimeout (by decide) (by decide) (by decide)⟩

/-- C2 counterexample: in the timed-out run, the session is created and
never destroyed, yet `client.stop()` is invoked — so the client is stopped
while a session created from it is still active, contradicting the second
half of the claim. -/
theorem c2_cex :
    ((mainRun envTimeout).1.countP Event.isCreate) = 1 ∧
    ((mainRun envTimeout).1.countP Event.isDestroy) = 0 ∧
    ((mainRun envTimeout).1.countP Event.isStop) = 1 := by
  decide

/-- C2 amended: on every execution path no operation is invoked on the
session after the session has been destroyed (nothing but `client.stop()`
can follow the destroy, and the stop invocation is always the last event of
the trace).  However the other half of the original claim does not hold:
`client.stop()` can run while the session is still active, namely on every
path where the session was created but a later step of the guarded region
failed before the destroy was reached. -/
theorem c2_amended_thm (env : Env) :
    noUseAfterDestroy (mainRun env).1 = true ∧
    stopIsLast (mainRun env).1 = true := by
  obtain ⟨s, c, snd, p, d, st⟩ := env
  cases s <;> cases c <;> cases snd <;> cases p <;> cases d <;> cases st <;>
    simp [mainRun, tryBody, noUseAfterDestroy, stopIsLast, tailOk,
      Event.isDestroy, Event.isStop, Event.isSessionOp]

/-- C4 counterexample: when session creation fails and the `client.stop()`
call in the `finally` block also fails, the error surfaced at the process
boundary is the stop error, not the `SessionCreationError` the claim says is
propagated (CPython replaces an in-flight exception by one raised in the
`finally` block). -/
theorem c4_cex :
    (tryBody ⟨true, false, SendOutcome.timeout, true, true, false⟩).2
      = some Err.sessionCreationError ∧
    (mainRun ⟨true, false, SendOutcome.timeout, true, true, false⟩).2
      = some Err.stopError ∧
    (Err.stopError == Err.sessionCreationError) = false := by
  decide

/-- C4 amended: if session creation fails after the client has started, the
driver invokes `client.stop()` exactly once and `session.destroy()` zero
times; the error that reaches the process boundary is the
`SessionCreationError` when the stop call succeeds, and the stop call's own
error when the stop call fails. -/
theorem c4_amended_thm (env : Env) (hs : env.startOk = true)
    (hc : env.createOk = false) :
    ((mainRun env).1.countP Event.isStop) = 1 ∧
    ((mainRun env).1.countP Event.isDestroy) = 0 ∧
    (mainRun env).2 = some (if env.stopOk = true then Err.sessionCreationError
      else Err.stopError) := by
  obtain ⟨s, c, snd, p, d, st⟩ := env
  cases s <;> cases c <;> cases snd <;> cases p <;> cases d <;> cases st <;>
    simp_all [mainRun, tryBody, Event.isStop, Event.isDestroy,
      List.countP_cons, List.countP_append]

/-- Witness for the amended C4 at a concrete run whose session creation is
rejected while every other call succeeds. -/
theorem c4_witness :
    (⟨true, false, SendOutcome.timeout, true, true, true⟩ : Env).startOk = true ∧
    (⟨true, false, SendOutcome.timeout, true, true, true⟩ : Env).createOk = false ∧
    (((mainRun ⟨true, false, SendOutcome.timeout, true, true, true⟩).1.countP
        Event.isStop) = 1 ∧
     ((mainRun ⟨true, false, SendOutcome.timeout, true, true, true⟩).1.countP
        Event.isDestroy) = 0 ∧
     (mainRun ⟨true, false, SendOutcome.timeout, true, true, true⟩).2
       = some (if (⟨true, false, SendOutcome.timeout, true, true, true⟩ : Env).stopOk
           = true then Err.sessionCreationError else Err.stopError)) :=
  ⟨by decide, by decide,
   c4_amended_thm ⟨true, false, SendOutcome.timeout, true, true, true⟩
     (by decide) (by decide)⟩

/-- C5: if `client.start()` fails (unreachable service), the trace is the
single failed start invocation — no session is created, no destroy and no
stop are invoked — and the `ConnectionError` propagates to the process
boundary. -/
theorem c5_thm (env : Env) (h : env.startOk = false) :
    (mainRun env).1 = [Event.start] ∧
    (mainRun env).2 = some Err.connectionError ∧
    ((mainRun env).1.countP Event.isCreate) = 0 ∧
    ((mainRun env).1.countP Event.isDestroy) = 0 ∧
    ((mainRun env).1.countP Event.isStop) = 0 := by
  obtain ⟨s, c, snd, p, d, st⟩ := env
  cases s <;>
    simp_all [mainRun, Event.isCreate, Event.isDestroy, Event.isStop,
      List.countP_cons]

/-- Witness for C5 at a concrete run with an unreachable service. -/
theorem c5_witness :
    (⟨false, true, SendOutcome.timeout, true, true, true⟩ : Env).startOk = false ∧
    ((mainRun ⟨false, true, SendOutcome.timeout, true, true, true⟩).1
       = [Event.start] ∧
     (mainRun ⟨false, true, SendOutcome.timeout, true, true, true⟩).2
       = some Err.connectionError ∧
     ((mainRun ⟨false, true, SendOutcome.timeout, true, true, true⟩).1.countP
        Event.isCreate) = 0 ∧
     ((mainRun ⟨false, true, SendOutcome.timeout, true, true, true⟩).1.countP
        Event.isDestroy) = 0 ∧
     ((mainRun ⟨false, true, SendOutcome.timeout, true, true, true⟩).1.countP
        Event.isStop) = 0) :=
  ⟨by decide,
   c5_thm ⟨false, true, SendOutcome.timeout, true, true, true⟩ (by decide)⟩

/-- C6: on every successful run the trace is exactly the six invocations in
program order — client start, session create (with the script's model
selector), send-and-wait (with the script's prompt and timeout), print of
the response content, session destroy, client stop — so the session and the
client are released in the reverse of their acquisition order. -/
theorem c6_thm (env : Env) (h : (mainRun env).2 = none) :
    (mainRun env).1 = [Event.start, Event.create_session modelName,
      Event.send_and_wait promptText timeoutValue,
      Event.print env.send.content, Event.destroy, Event.stop] := by
  obtain ⟨s, c, snd, p, d, st⟩ := env
  cases s <;> cases c <;> cases snd <;> cases p <;> cases d <;> cases st <;>
    simp_all [mainRun, tryBody, SendOutcome.content]

/-- Witness for C6 at a concrete fully successful run. -/
theorem c6_witness :
    (mainRun (envOk "ok")).2 = none ∧
    (mainRun (envOk "ok")).1 = [Event.start, Event.create_session modelName,
      Event.send_and_wait promptText timeoutValue,
      Event.print (envOk "ok").send.content, Event.destroy, Event.stop] :=
  ⟨by decide, c6_thm (envOk "ok") (by decide)⟩

/-- C7: on every successful run each of the six invocations — client start,
client stop, session create, session destroy, send, print — occurs exactly
once in the trace: one session created and destroyed, one start paired with
one stop, one outbound request, one line of output. -/
theorem c7_thm (env : Env) (h : (mainRun env).2 = none) :
    ((mainRun env).1.countP Event.isStart) = 1 ∧
    ((mainRun env).1.countP Event.isStop) = 1 ∧
    ((mainRun env).1.countP Event.isCreate) = 1 ∧
    ((mainRun env).1.countP Event.isDestroy) = 1 ∧
    ((mainRun env).1.countP Event.isSend) = 1 ∧
    ((mainRun env).1.countP Event.isPrint) = 1 := by
  obtain ⟨s, c, snd, p, d, st⟩ := env
  cases s <;> cases c <;> cases snd <;> cases p <;> cases d <;> cases st <;>
    simp_all [mainRun, tryBody, Event.isStart, Event.isStop, Event.isCreate,
      Event.isDestroy, Event.isSend, Event.isPrint, List.countP_cons,
      List.countP_append]

/-- Witness for C7 at a concrete fully successful run. -/
theorem c7_witness :
    (mainRun (envOk "ok")).2 = none ∧
    (((mainRun (envOk "ok")).1.countP Event.isStart) = 1 ∧
     ((mainRun (envOk "ok")).1.countP Event.isStop) = 1 ∧
     ((mainRun (envOk "ok")).1.countP Event.isCreate) = 1 ∧
     ((mainRun (envOk "ok")).1.countP Event.isDestroy) = 1 ∧
     ((mainRun (envOk "ok")).1.countP Event.isSend) = 1 ∧
     ((mainRun (envOk "ok")).1.countP Event.isPrint) = 1) :=
  ⟨by decide, c7_thm (envOk "ok") (by decide)⟩

/-- C8 counterexample: a fully successful run in which the service returns
an empty content.  The request the driver submits carries the prompt
"Pythonでfizzbuzzを書いて", not "write fizzbuzz" as the claim states, and the
printed content is the empty string, so the claim's non-empty-content
guarantee also fails: the driver never checks the content. -/
theorem c8_cex :
    (mainRun (envOk "")).2 = none ∧
    (mainRun (envOk "")).1 = [Event.start, Event.create_session "gpt-4.1",
      Event.send_and_wait "Pythonでfizzbuzzを書いて" 60, Event.print "",
      Event.destroy, Event.stop] ∧
    (promptText == "write fizzbuzz") = false := by
  decide

/-- C8 amended: the reference flow creates its session with model
configuration "gpt-4.1", submits its single request with the prompt
"Pythonでfizzbuzzを書いて" and a timeout of 60 time units, and on a successful
run writes the content of the response the service returned — whatever text
that is — to standard output before the session destroy and the client
stop. -/
theorem c8_amended_thm (env : Env) (r : Response) (hs : env.startOk = true)
    (hc : env.createOk = true) (hr : env.send = SendOutcome.ok r)
    (hp : env.printOk = true) (hd : env.destroyOk = true)
    (hst : env.stopOk = true) :
    (mainRun env).2 = none ∧
    (mainRun env).1 = [Event.start, Event.create_session "gpt-4.1",
      Event.send_and_wait "Pythonでfizzbuzzを書いて" 60,
      Event.print r.data.content, Event.destroy, Event.stop] := by
  obtain ⟨s, c, snd, p, d, st⟩ := env
  cases s <;> cases c <;> cases snd <;> cases p <;> cases d <;> cases st <;>
    simp_all [mainRun, tryBody, modelName, promptText, timeoutValue]

/-- Witness for the amended C8 at a concrete successful run. -/
theorem c8_witness :
    (envOk "hi").startOk = true ∧ (envOk "hi").createOk = true ∧
    (envOk "hi").send = SendOutcome.ok ⟨⟨"hi"⟩⟩ ∧
    (envOk "hi").printOk = true ∧ (envOk "hi").destroyOk = true ∧
    (envOk "hi").stopOk = true ∧
    ((mainRun (envOk "hi")).2 = none ∧
     (mainRun (envOk "hi")).1 = [Event.start, Event.create_session "gpt-4.1",
       Event.send_and_wait "Pythonでfizzbuzzを書いて" 60,
       Event.print (Response.mk (ResponseData.mk "hi")).data.content,
       Event.destroy, Event.stop]) :=
  ⟨by decide, by decide, by decide, by decide, by decide, by decide,
   c8_amended_thm (envOk "hi") ⟨⟨"hi"⟩⟩ (by decide) (by decide) (by decide)
     (by decide) (by decide) (by decide)⟩

/-- C9 counterexample: the send times out (the error propagating out of the
`try` body is the `TimeoutError`) and the `client.stop()` cleanup call in
the `finally` block also fails; the error surfaced at the process boundary
is the stop error, not the original timeout, because an exception raised in
a `finally` block replaces the in-flight one. -/
theorem c9_cex :
    (tryBody ⟨true, true, SendOutcome.timeout, true, true, false⟩).2
      = some Err.timeoutError ∧
    (mainRun ⟨true, true, SendOutcome.timeout, true, true, false⟩).2
      = some Err.stopError ∧
    (Err.stopError == Err.timeoutError) = false := by
  decide

/-- C9 amended: when a step of the main flow fails and the `client.stop()`
cleanup call also fails during the resulting unwinding, the error surfaced
at the process boundary is the cleanup (stop) error, which replaces the
original error; and no retries are performed on any failure — every kind of
invocation occurs at most once in the trace. -/
theorem c9_amended_thm (env : Env) (e : Err) (hs : env.startOk = true)
    (hst : env.stopOk = false) (he : (tryBody env).2 = some e) :
    (mainRun env).2 = some Err.stopError ∧
    ((mainRun env).1.countP Event.isStart) ≤ 1 ∧
    ((mainRun env).1.countP Event.isCreate) ≤ 1 ∧
    ((mainRun env).1.countP Event.isSend) ≤ 1 ∧
    ((mainRun env).1.countP Event.isPrint) ≤ 1 ∧
    ((mainRun env).1.countP Event.isDestroy) ≤ 1 ∧
    ((mainRun env).1.countP Event.isStop) ≤ 1 := by
  obtain ⟨s, c, snd, p, d, st⟩ := env
  cases s <;> cases c <;> cases snd <;> cases p <;> cases d <;> cases st <;>
    simp_all [mainRun, tryBody, Event.isStart, Event.isStop, Event.isCreate,
      Event.isDestroy, Event.isSend, Event.isPrint, List.countP_cons,
      List.countP_append]

/-- Witness for the amended C9 at the concrete run where the send times out
and the stop call fails. -/
theorem c9_witness :
    (⟨true, true, SendOutcome.timeout, true, true, false⟩ : Env).startOk = true ∧
    (⟨true, true, SendOutcome.timeout, true, true, false⟩ : Env).stopOk = false ∧
    (tryBody ⟨true, true, SendOutcome.timeout, true, true, false⟩).2
      = some Err.timeoutError ∧
    ((mainRun ⟨true, true, SendOutcome.timeout, true, true, false⟩).2
       = some Err.stopError ∧
     ((mainRun ⟨true, true, SendOutcome.timeout, true, true, false⟩).1.countP
        Event.isStart) ≤ 1 ∧
     ((mainRun ⟨true, true, SendOutcome.timeout, true, true, false⟩).1.countP
        Event.isCreate) ≤ 1 ∧
     ((mainRun ⟨true, true, SendOutcome.timeout, true, true, false⟩).1.countP
        Event.isSend) ≤ 1 ∧
     ((mainRun ⟨true, true, SendOutcome.timeout, true, true, false⟩).1.countP
        Event.isPrint) ≤ 1 ∧
     ((mainRun ⟨true, true, SendOutcome.timeout, true, true, false⟩).1.countP
        Event.isDestroy) ≤ 1 ∧
     ((mainRun ⟨true, true, SendOutcome.timeout, true, true, false⟩).1.countP
        Event.isStop) ≤ 1) :=
  ⟨by decide, by decide, by decide,
   c9_amended_thm ⟨true, true, SendOutcome.timeout, true, true, false⟩
     Err.timeoutError (by decide) (by decide) (by decide)⟩

/-- C10: if `session.destroy()` fails on an otherwise successful run (the
client started, the session was created, the send returned a response, the
content was printed, and the later stop call succeeds), `client.stop()` is
still invoked exactly once, the destroy error propagates to the process
boundary, and the print of the response content precedes the destroy and
the stop in the trace. -/
theorem c10_thm (env : Env) (r : Response) (hs : env.startOk = true)
    (hc : env.createOk = true) (hr : env.send = SendOutcome.ok r)
    (hp : env.printOk = true) (hd : env.destroyOk = false)
    (hst : env.stopOk = true) :
    ((mainRun env).1.countP Event.isStop) = 1 ∧
    (mainRun env).2 = some Err.destroyError ∧
    (mainRun env).1 = [Event.start, Event.create_session modelName,
      Event.send_and_wait promptText timeoutValue,
      Event.print r.data.content, Event.destroy, Event.stop] := by
  obtain ⟨s, c, snd, p, d, st⟩ := env
  cases s <;> cases c <;> cases snd <;> cases p <;> cases d <;> cases st <;>
    simp_all [mainRun, tryBody, Event.isStop, List.countP_cons,
      List.countP_append]

/-- Witness for C10 at a concrete run whose destroy call fails after a
successful exchange. -/
theorem c10_witness :
    (⟨true, true, SendOutcome.ok ⟨⟨"hi"⟩⟩, true, false, true⟩ : Env).startOk
      = true ∧
    (⟨true, true, SendOutcome.ok ⟨⟨"hi"⟩⟩, true, false, true⟩ : Env).createOk
      = true ∧
    (⟨true, true, SendOutcome.ok ⟨⟨"hi"⟩⟩, true, false, true⟩ : Env).send
      = SendOutcome.ok ⟨⟨"hi"⟩⟩ ∧
    (⟨true, true, SendOutcome.ok ⟨⟨"hi"⟩⟩, true, false, true⟩ : Env).printOk
      = true ∧
    (⟨true, true, SendOutcome.ok ⟨⟨"hi"⟩⟩, true, false, true⟩ : Env).destroyOk
      = false ∧
    (⟨true, true, SendOutcome.ok ⟨⟨"hi"⟩⟩, true, false, true⟩ : Env).stopOk
      = true ∧
    (((mainRun ⟨true, true, SendOutcome.ok ⟨⟨"hi"⟩⟩, true, false, true⟩).1.countP
        Event.isStop) = 1 ∧
     (mainRun ⟨true, true, SendOutcome.ok ⟨⟨"hi"⟩⟩, true, false, true⟩).2
       = some Err.destroyError ∧
     (mainRun ⟨true, true, SendOutcome.ok ⟨⟨"hi"⟩⟩, true, false, true⟩).1
       = [Event.start, Event.create_session modelName,
          Event.send_and_wait promptText timeoutValue,
          Event.print (Response.mk (ResponseData.mk "hi")).data.content,
          Event.destroy, Event.stop]) :=
  ⟨by decide, by decide, by decide, by decide, by decide, by decide,
   c10_thm ⟨true, true, SendOutcome.ok ⟨⟨"hi"⟩⟩, true, false, true⟩ ⟨⟨"hi"⟩⟩
     (by decide) (by decide) (by decide) (by decide) (by decide) (by decide)⟩
